import Mathlib

/-!
Verification of the ClickUp CSV task importer
(`clickup_csv_importer.py`, current version, and `clickup-csv-importer.py`,
the older version kept in the repository).

The development shallowly embeds the row mapper, the service-client wrapper
and the import driver.  Machine-level concerns that the Python code delegates
to libraries are modelled at the interface the code relies on:

* `requests.Response.raise_for_status` raises `HTTPError` exactly for status
  codes in 400..599 (the documented behaviour of the `requests` library);
* `datetime.strptime` with the four format strings used by the older file is
  modelled by an exact tokenizer (a `%Y` field is exactly four digits, `%m`
  and `%d` are one or two digits, and the resulting calendar date must be
  valid, otherwise the format raises `ValueError` and the next one is tried);
* `dateutil.parser.parse` (used by the current file) is modelled on inputs
  consisting of three numeric fields joined by a uniform separator, following
  dateutil's default (month-first) resolution: a four-digit field is the
  year; for `a/b/YYYY` the first field is the month unless it exceeds 12, in
  which case day and month are swapped.  Inputs outside this fragment are
  mapped to `none`; every theorem below that involves the permissive parser
  only constrains it on the fragment (strings matching one of the four
  supported formats, the empty string, or concrete inputs inside the
  fragment), so the restriction is sound for the stated results.
* `datetime.timestamp()` depends on the local timezone; the model fixes the
  timezone to UTC (the specification only requires consistency across runs).
  All proved properties except the concrete values appearing in witnesses
  are independent of a constant timezone offset.
-/

namespace ClickUpImporter

/-! ### Calendar dates and epoch conversion -/

/-- Proleptic Gregorian leap-year test (as used by `datetime` and `dateutil`). -/
def isLeap (y : Nat) : Bool := y % 4 == 0 && (y % 100 != 0 || y % 400 == 0)

/-- Number of days of month `m` in year `y` (months are 1-based). -/
def daysInMonth (y m : Nat) : Nat :=
  if m = 2 then (if isLeap y then 29 else 28)
  else if m = 4 ∨ m = 6 ∨ m = 9 ∨ m = 11 then 30
  else 31

/-- Validity of a calendar date as enforced by Python's `datetime` constructor
(`MINYEAR = 1`, `MAXYEAR = 9999`). -/
def validDate (y m d : Nat) : Bool :=
  decide (1 ≤ y ∧ y ≤ 9999 ∧ 1 ≤ m ∧ m ≤ 12 ∧ 1 ≤ d ∧ d ≤ daysInMonth y m)

/-- A parsed calendar date. -/
structure Date where
  year : Nat
  month : Nat
  day : Nat
deriving DecidableEq, Repr

/-- Days since 0000-03-01 of the proleptic Gregorian calendar (shifted civil
day count; the standard era-based formula, kept in `Nat` so that all
divisions are on nonnegative numbers). Intended for valid dates, where
`1 ≤ year` so the subtraction `year - 1` does not truncate. -/
def daysSinceMarch1Year0 (y m d : Nat) : Nat :=
  let yAdj := if m ≤ 2 then y - 1 else y
  let era := yAdj / 400
  let yoe := yAdj % 400
  let mp := (m + 9) % 12
  let doy := (153 * mp + 2) / 5 + d - 1
  let doe := yoe * 365 + yoe / 4 - yoe / 100 + doy
  era * 146097 + doe

/-- `int(datetime(y, m, d).timestamp() * 1000)` under the UTC model:
milliseconds between midnight of the given date and 1970-01-01. -/
def epochMillis (dt : Date) : Int :=
  ((daysSinceMarch1Year0 dt.year dt.month dt.day : Int) - 719468) * 86400000

/-! ### Tokenization shared by both date parsers -/

/-- Split a list of characters on a separator character.  This is Python's
`str.split(sep)`: empty segments are kept, splitting the empty string yields
one empty segment. -/
def splitCharsAux (sep : Char) : List Char → List Char → List String
  | acc, [] => [String.mk acc.reverse]
  | acc, c :: cs =>
    if c = sep then String.mk acc.reverse :: splitCharsAux sep [] cs
    else splitCharsAux sep (c :: acc) cs

/-- Split a string on a separator character (Python `str.split(sep)`). -/
def splitOnChar (sep : Char) (s : String) : List String :=
  splitCharsAux sep [] s.data

/-- Exactly three fields separated by `sep`. -/
def splitComponents (sep : Char) (s : String) : Option (String × String × String) :=
  match splitOnChar sep s with
  | [a, b, c] => some (a, b, c)
  | _ => none

/-- Shape of a candidate date string: three fields joined by dashes, three
fields joined by slashes, or anything else.  A string that dash-splits into
three digit fields contains no slash and conversely, so classifying by the
first matching shape loses nothing (a slash format can never match a string
of dash shape and vice versa). -/
inductive Tokens where
  | dash (a b c : String)
  | slash (a b c : String)
  | other
deriving DecidableEq, Repr

/-- Classify a date string by its separator shape. -/
def tokenize (s : String) : Tokens :=
  match splitComponents '-' s with
  | some (a, b, c) => .dash a b c
  | none =>
    match splitComponents '/' s with
    | some (a, b, c) => .slash a b c
    | none => .other

/-- Numeric value of a digit string (most significant digit first). -/
def digitsToNat (l : List Char) : Nat :=
  l.foldl (fun n c => n * 10 + (c.toNat - 48)) 0

/-- A `%Y` field of CPython's `strptime`: exactly four digits. -/
def field4 (s : String) : Option Nat :=
  if s.data.length = 4 ∧ s.data.all Char.isDigit then some (digitsToNat s.data)
  else none

/-- A `%m` or `%d` field: one or two digits.  (CPython's regexes for `%m`
and `%d` additionally bound the value; an out-of-range value makes the
constructed date invalid, which the validity check below rejects exactly as
`strptime` does by raising `ValueError`.) -/
def field12 (s : String) : Option Nat :=
  if (s.data.length = 1 ∨ s.data.length = 2) ∧ s.data.all Char.isDigit then
    some (digitsToNat s.data)
  else none

/-! ### The older `parse_date` (`clickup-csv-importer.py`): strptime format list -/

/-- `datetime.strptime(s, sep.join(["%Y", "%m", "%d"]))` on already split
fields. -/
def fmtYmd (a b c : String) : Option Date :=
  match field4 a, field12 b, field12 c with
  | some y, some m, some d => if validDate y m d then some ⟨y, m, d⟩ else none
  | _, _, _ => none

/-- `datetime.strptime` with format `%d/%m/%Y` on already split fields. -/
def fmtDmy (a b c : String) : Option Date :=
  match field12 a, field12 b, field4 c with
  | some d, some m, some y => if validDate y m d then some ⟨y, m, d⟩ else none
  | _, _, _ => none

/-- `datetime.strptime` with format `%m/%d/%Y` on already split fields. -/
def fmtMdy (a b c : String) : Option Date :=
  match field12 a, field12 b, field4 c with
  | some m, some d, some y => if validDate y m d then some ⟨y, m, d⟩ else none
  | _, _, _ => none

/-- The older `parse_date`'s format loop, on classified tokens: the loop
tries `%Y-%m-%d`, `%d/%m/%Y`, `%m/%d/%Y`, `%Y/%m/%d` in order and returns
the first success. -/
def interpOld : Tokens → Option Date
  | .dash a b c => fmtYmd a b c
  | .slash a b c => (fmtDmy a b c).orElse fun _ => (fmtMdy a b c).orElse fun _ => fmtYmd a b c
  | .other => none

/-- `parse_date` of the older file `clickup-csv-importer.py`: try the four
`strptime` formats in order, convert the first success to epoch
milliseconds, return `None` on empty input or total parse failure. -/
def parse_date_strptime (s : String) : Option Int :=
  if s = "" then none
  else (interpOld (tokenize s)).map epochMillis

/-- A string is in one of the four supported date formats exactly when one of
the four `strptime` patterns of the older implementation matches it. -/
def supportedFormat (s : String) : Bool :=
  (interpOld (tokenize s)).isSome

/-! ### The current `parse_date` (`clickup_csv_importer.py`): dateutil -/

/-- `dateutil.parser.parse` with default settings on three numeric fields:
a four-digit field is the year; with the year last, the first field is the
month unless it exceeds 12 (`dayfirst=False`), in which case day and month
are swapped. An assignment producing an invalid date raises and yields
`None` in `parse_date`. -/
def dateutilResolve (a b c : String) : Option Date :=
  match field4 a, field12 b, field12 c with
  | some y, some m, some d => if validDate y m d then some ⟨y, m, d⟩ else none
  | _, _, _ =>
    match field12 a, field12 b, field4 c with
    | some p, some q, some y =>
      if 12 < p then (if validDate y q p then some ⟨y, q, p⟩ else none)
      else (if validDate y p q then some ⟨y, p, q⟩ else none)
    | _, _, _ => none

/-- The permissive parser on classified tokens (dateutil accepts both dashes
and slashes as separators of a numeric date). -/
def interpNew : Tokens → Option Date
  | .dash a b c => dateutilResolve a b c
  | .slash a b c => dateutilResolve a b c
  | .other => none

/-- `parse_date` of the current file `clickup_csv_importer.py`:
`dateutil.parser.parse` followed by conversion to epoch milliseconds,
`None` on empty input or parse failure. -/
def parse_date (s : String) : Option Int :=
  if s = "" then none
  else (interpNew (tokenize s)).map epochMillis

/-- A slash date `a/b/YYYY` is ambiguous between day-first and month-first
when both leading fields could be months and they differ. -/
def ambiguousSlash (s : String) : Bool :=
  match tokenize s with
  | .slash a b c =>
    match field12 a, field12 b, field4 c with
    | some p, some q, some _ => decide (p ≤ 12 ∧ q ≤ 12 ∧ p ≠ q)
    | _, _, _ => false
  | _ => false

/-! ### Rows and the row mapper (`process_csv` loop body, field extraction) -/

/-- One input record keyed by header column name, in column-iteration order
(Python dictionaries preserve insertion order; `csv.DictReader` fills them
in header order with unique keys).  A missing value (`None`) is modelled by
the absence of the key. -/
abbrev Row := List (String × String)

/-- `row.get(k)`: the value under key `k`, if present. -/
def getVal (row : Row) (k : String) : Option String :=
  (row.find? (fun kv => kv.fst == k)).map (fun kv => kv.snd)

/-- Truthiness of `row[k]` guarded by `k in row` (Python
`'k' in row and row['k']`): the key is present with a non-empty value. -/
def presentNonEmpty (row : Row) (k : String) : Bool :=
  ((getVal row k).getD "") != ""

/-- ASCII whitespace, as stripped by Python's `str.strip()` on the inputs in
scope. -/
def isSpaceChar (c : Char) : Bool :=
  c = ' ' || c = '\t' || c = '\n' || c = '\x0d' || c = '\x0b' || c = '\x0c'

/-- Python `str.strip()`. -/
def trimChars (s : String) : String :=
  String.mk (((s.data.dropWhile isSpaceChar).reverse.dropWhile isSpaceChar).reverse)

/-- `[seg.strip() for seg in value.split(sep)]`: split on a separator and
strip each segment (empty segments are kept, as in Python). -/
def splitTrim (sep : Char) (s : String) : List String :=
  (splitOnChar sep s).map trimChars

/-- The fixed priority lexicon of `process_csv`
(`urgent` 1, `high` 2, `normal` 3, `low` 4), applied to the lowered text. -/
def priority_map (s : String) : Option Nat :=
  if s = "urgent" then some 1
  else if s = "high" then some 2
  else if s = "normal" then some 3
  else if s = "low" then some 4
  else none

/-- Python `str.lower()` (ASCII-faithful). -/
def lowerString (s : String) : String :=
  String.mk (s.data.map Char.toLower)

/-- Python `key.replace('custom_', '')` on the character list: remove every
non-overlapping occurrence of `custom_`, scanning left to right and
continuing after each removed occurrence.  Fuel-based structural recursion;
the fuel is initialized to the length of the list, which suffices because
every step consumes at least one character. -/
def stripAllCustomAux : Nat → List Char → List Char
  | 0, _ => []
  | _, [] => []
  | fuel + 1, c :: cs =>
    if (c :: cs).take 7 = "custom_".data then stripAllCustomAux fuel ((c :: cs).drop 7)
    else c :: stripAllCustomAux fuel cs

/-- Python `key.replace('custom_', '')`. -/
def replaceCustom (s : String) : String :=
  String.mk (stripAllCustomAux s.data.length s.data)

/-- One entry of the payload's `custom_fields` sequence. -/
structure CustomField where
  id : String
  value : String
deriving DecidableEq, Repr

/-- The Task Payload assembled by the `process_csv` loop body.  An optional
field is `none` exactly when the corresponding key is absent from the
`task_data` dictionary; `custom_fields` is `[]` exactly when its key is
absent (the key is only created when the first entry is appended). -/
structure TaskData where
  name : String
  description : String
  due_date : Option Int
  priority : Option Nat
  status : Option String
  tags : Option (List String)
  assignees : Option (List String)
  subtasks : Option (List String)
  custom_fields : List CustomField
deriving DecidableEq, Repr

/-- Python `key.startswith('custom_')`: the first seven characters are
exactly the prefix. -/
def startsCustom (k : String) : Bool :=
  k.data.take 7 == "custom_".data

/-- The custom-field scan of `process_csv`: iterate over the row's items in
order and append `{id: key.replace('custom_', ''), value: value}` for every
key starting with `custom_` whose value is non-empty. -/
def addCustomFields (fields : List CustomField) (row : Row) : List CustomField :=
  row.foldl
    (fun acc kv =>
      if startsCustom kv.fst && kv.snd != "" then
        acc ++ [⟨replaceCustom kv.fst, kv.snd⟩]
      else acc)
    fields

/-- The `task_data` dictionary built by one iteration of the `process_csv`
loop for a non-skipped row.  Mirrors the source line by line:
`name` and `description` default to the empty string; `due_date` is added
only when the parsed value is truthy (non-`None` and non-zero); `priority`
only when the lowered text is in the lexicon; `status`, `tags`, `assignees`,
`subtasks` only when the column is present and non-empty (the split list for
`subtasks` is never empty, so its inner `if subtasks:` guard always passes).
-/
def buildTask (row : Row) : TaskData :=
  { name := (getVal row "name").getD ""
  , description := (getVal row "description").getD ""
  , due_date :=
      if presentNonEmpty row "due_date" then
        match parse_date ((getVal row "due_date").getD "") with
        | some n => if n ≠ 0 then some n else none
        | none => none
      else none
  , priority :=
      if presentNonEmpty row "priority" then
        priority_map (lowerString ((getVal row "priority").getD ""))
      else none
  , status :=
      if presentNonEmpty row "status" then some ((getVal row "status").getD "")
      else none
  , tags :=
      if presentNonEmpty row "tags" then some (splitTrim ',' ((getVal row "tags").getD ""))
      else none
  , assignees :=
      if presentNonEmpty row "assignees" then some (splitTrim ',' ((getVal row "assignees").getD ""))
      else none
  , subtasks :=
      if presentNonEmpty row "subtasks" then some (splitTrim ';' ((getVal row "subtasks").getD ""))
      else none
  , custom_fields := addCustomFields [] row }

/-- The skip guard of the `process_csv` loop:
`if not row or not row.get('name'): continue`.  A row is skipped when the
dictionary is empty or the `name` value is falsy (absent or the empty
string).  No trimming is applied by the source. -/
def skipRow (row : Row) : Bool :=
  row.isEmpty || ((getVal row "name").getD "") == ""

/-! ### Service client: HTTP model, `verify_access`, `create_task` -/

/-- Outcome of one HTTP request as seen through the `requests` library: a
response with a status code and a parsed JSON object body (modelled as a
string-valued association list), or a transport-level failure
(`requests.exceptions.RequestException`). -/
inductive HttpOutcome where
  | resp (status : Nat) (body : List (String × String))
  | transportError (msg : String)
deriving DecidableEq, Repr

/-- `Response.raise_for_status` raises `requests.exceptions.HTTPError`
exactly for client-error and server-error status codes (400..599). -/
def raisesForStatus (status : Nat) : Bool :=
  decide (400 ≤ status ∧ status < 600)

/-- Exception raised by one `requests.get`/`requests.post` call followed by
`raise_for_status`. -/
inductive ReqError where
  | httpError (status : Nat)
  | requestError (msg : String)
deriving DecidableEq, Repr

/-- One request plus `raise_for_status`: yields the body, or the exception
that propagates into the surrounding `try`. -/
def doRequest (o : HttpOutcome) : Except ReqError (List (String × String)) :=
  match o with
  | .resp status body =>
    if raisesForStatus status then .error (.httpError status) else .ok body
  | .transportError msg => .error (.requestError msg)

/-- The error taxonomy of the importer (`ClickUpImporterError` subclasses). -/
inductive ImporterError where
  | configuration (msg : String)
  | authentication (msg : String)
  | resourceNotFound (msg : String)
  | api (msg : String)
  | csv (msg : String)
deriving DecidableEq, Repr

/-- Error message used by `verify_access` for a 401 response. -/
def authErrMsg : String :=
  "Invalid API token. Please check your API token and try again."

/-- Error message used by `verify_access` for a 404 response. -/
def notFoundErrMsg (listId : String) : String :=
  "List ID " ++ listId ++ " not found. Please check your list ID and try again."

/-- Error message used by `verify_access` for other HTTP errors. -/
def httpErrMsg : String := "HTTP error occurred"

/-- Error message used for transport-level failures. -/
def connectErrMsg (m : String) : String :=
  "Error connecting to ClickUp API: " ++ m

/-- `verify_access`: issue the identity lookup and then the list lookup, each
followed by `raise_for_status`, inside one `try`.  The `except` clause
catches the `HTTPError` of whichever call failed first and maps its status:
401 to `AuthenticationError`, 404 to `ResourceNotFoundError`, anything else
to `APIError`; a `RequestException` maps to `APIError`.  On success the
list's display name (`response.json().get('name', 'Unknown')`) is reported.
-/
def verify_access (userReq listReq : HttpOutcome) (listId : String) :
    Except ImporterError String :=
  match (match doRequest userReq with
        | .error e => Except.error e
        | .ok _ => doRequest listReq) with
  | .ok body =>
    .ok (((body.find? (fun kv => kv.fst == "name")).map (fun kv => kv.snd)).getD "Unknown")
  | .error (.httpError status) =>
    if status = 401 then .error (.authentication authErrMsg)
    else if status = 404 then .error (.resourceNotFound (notFoundErrMsg listId))
    else .error (.api httpErrMsg)
  | .error (.requestError msg) => .error (.api (connectErrMsg msg))

/-- The status-to-error mapping of `verify_access`'s `except` clause, as a
standalone function (used to state which error the first failing lookup
produces). -/
def statusError (status : Nat) (listId : String) : Except ImporterError String :=
  if status = 401 then .error (.authentication authErrMsg)
  else if status = 404 then .error (.resourceNotFound (notFoundErrMsg listId))
  else .error (.api httpErrMsg)

/-- `ClickUpCSVImporter.__init__`: reject a falsy token or list id with
`ConfigurationError`, then run `verify_access` unless in dry-run mode. -/
def importerInit (apiToken listId : String) (dryRun : Bool)
    (userReq listReq : HttpOutcome) : Except ImporterError Unit :=
  if apiToken = "" then .error (.configuration "API token is required")
  else if listId = "" then .error (.configuration "List ID is required")
  else if dryRun then .ok ()
  else (verify_access userReq listReq listId).map (fun _ => ())

/-- `create_task`: in dry-run mode, return the simulated response without
touching the network (zero requests issued); otherwise issue exactly one
POST and return the parsed body on a non-raising status, or `None` when
`raise_for_status` raises or the transport fails.  The second component
counts HTTP requests issued by the call. -/
def create_task (dryRun : Bool) (outcome : HttpOutcome) (taskName : String) :
    Option (List (String × String)) × Nat :=
  if dryRun then
    (some [("id", "dry-run-task-id"), ("name", taskName),
           ("url", "https://app.clickup.com/dry-run-url")], 0)
  else
    match outcome with
    | .resp status body =>
      if raisesForStatus status then (none, 1) else (some body, 1)
    | .transportError _ => (none, 1)

/-! ### Import driver: `process_csv`, results ledger, `write_results_to_csv`,
`main` -/

/-- One entry of `self.results["success"]`. -/
structure SuccessRec where
  name : String
  id : String
  url : String
deriving DecidableEq, Repr

/-- One entry of `self.results["failure"]`. -/
structure FailureRec where
  name : String
  row : Nat
  error : String
deriving DecidableEq, Repr

/-- The mutable state of one `process_csv` run: the two counters, the two
result lists, and two instrumentation counters recording how many times
`create_task` was invoked and how many HTTP POSTs were issued. -/
structure RunState where
  success_count : Nat
  error_count : Nat
  succ : List SuccessRec
  fail : List FailureRec
  create_calls : Nat
  net_posts : Nat
deriving DecidableEq, Repr

/-- State at the top of `process_csv`. -/
def initState : RunState := ⟨0, 0, [], [], 0, 0⟩

/-- `body.get(k, d)` on a parsed JSON object. -/
def lookupD (body : List (String × String)) (k d : String) : String :=
  (((body.find? (fun kv => kv.fst == k)).map (fun kv => kv.snd)).getD d)

/-- One iteration of the `process_csv` loop: skip a falsy row or a row with
falsy `name`; otherwise build the payload, call `create_task`, and append
exactly one result entry — a success entry (with `id` defaulted to
`unknown` and `url` to the empty string) when the returned response is
truthy (a non-`None`, non-empty dictionary), a failure entry otherwise. -/
def processRow (dryRun : Bool) (outcome : HttpOutcome) (i : Nat)
    (st : RunState) (row : Row) : RunState :=
  if skipRow row then st
  else
    let td := buildTask row
    let res := create_task dryRun outcome td.name
    let st1 : RunState :=
      { st with create_calls := st.create_calls + 1
              , net_posts := st.net_posts + res.snd }
    match res.fst with
    | some body =>
      if body ≠ [] then
        { st1 with success_count := st1.success_count + 1
                 , succ := st1.succ ++ [⟨td.name, lookupD body "id" "unknown",
                                         lookupD body "url" ""⟩] }
      else
        { st1 with error_count := st1.error_count + 1
                 , fail := st1.fail ++ [⟨td.name, i, "API request failed"⟩] }
    | none =>
      { st1 with error_count := st1.error_count + 1
               , fail := st1.fail ++ [⟨td.name, i, "API request failed"⟩] }

/-- The `process_csv` loop from row index `i` (rows are 1-indexed by
`enumerate(reader, 1)`); the network behaviour of the POST for row `i` is
given by `net i`. -/
def processFrom (dryRun : Bool) (net : Nat → HttpOutcome) :
    Nat → RunState → List Row → RunState
  | _, st, [] => st
  | i, st, row :: rest =>
    processFrom dryRun net (i + 1) (processRow dryRun (net i) i st row) rest

/-- The full `process_csv` loop over all data rows. -/
def processRows (dryRun : Bool) (net : Nat → HttpOutcome) (rows : List Row) :
    RunState :=
  processFrom dryRun net 1 initState rows

/-- `write_results_to_csv`: the records written to the output ledger, as
lists of field values — the fixed header, then one `SUCCESS` row per
success entry (empty `error`), then one `FAILED` row per failure entry
(empty `task_id` and `task_url`). -/
def write_results (st : RunState) : List (List String) :=
  ["task_name", "status", "task_id", "task_url", "error"] ::
    (st.succ.map (fun t => [t.name, "SUCCESS", t.id, t.url, ""]) ++
     st.fail.map (fun t => [t.name, "FAILED", "", "", t.error]))

/-- `process_csv` as a whole: opening the file raises `CSVError` when it does
not exist; a header without a `name` column raises `CSVError`; otherwise the
loop runs to completion (its body never raises), and, when an output file is
configured, `write_results_to_csv` is invoked — a failed write is caught
inside it and only logged, so it contributes the written records (or
nothing) but never an error.  Returns the two counters and the optionally
written ledger records. -/
def process_csv (dryRun : Bool) (net : Nat → HttpOutcome) (fileExists : Bool)
    (header : List String) (rows : List Row) (outputFile : Option String)
    (writeOk : Bool) :
    Except ImporterError (Nat × Nat × Option (List (List String))) :=
  if fileExists = false then .error (.csv "CSV file not found")
  else if header.contains "name" = false then
    .error (.csv "CSV must contain a name column for task names")
  else
    let st := processRows dryRun net rows
    let written : Option (List (List String)) :=
      match outputFile with
      | some _ => if writeOk then some (write_results st) else none
      | none => none
    .ok (st.success_count, st.error_count, written)

/-- The observable inputs of one invocation of `main`: the resolved API token
(the empty string models a falsy token, i.e. neither `--api-token` nor the
`CLICKUP_API_TOKEN` environment variable supplied one), the list id, the
dry-run flag, the optional output path, the outcomes of the two verification
GETs, whether the CSV file exists, its header, its data rows, the network
behaviour of each row's POST, and whether writing the ledger file succeeds.
-/
structure Env where
  api_token : String
  list_id : String
  dry_run : Bool
  output_file : Option String
  userReq : HttpOutcome
  listReq : HttpOutcome
  file_exists : Bool
  header : List String
  rows : List Row
  net : Nat → HttpOutcome
  write_ok : Bool

/-- `main`: resolve the token (raising `ConfigurationError` when falsy),
construct the importer (which may raise `ConfigurationError`,
`AuthenticationError`, `ResourceNotFoundError` or `APIError`), process the
CSV (which may raise `CSVError`), and return exit code 0; every `except`
handler returns exit code 1. -/
def main_run (env : Env) : Nat :=
  if env.api_token = "" then 1
  else
    match importerInit env.api_token env.list_id env.dry_run env.userReq env.listReq with
    | .error _ => 1
    | .ok _ =>
      match process_csv env.dry_run env.net env.file_exists env.header env.rows
          env.output_file env.write_ok with
      | .error _ => 1
      | .ok _ => 0

/-! ### Lemmas about the date parsers -/

/-- Every month has at least 28 days. -/
lemma daysInMonth_ge_28 (y m : Nat) : 28 ≤ daysInMonth y m := by
  unfold daysInMonth
  split_ifs <;> omega

/-- Unfolding of the validity test. -/
lemma validDate_eq_true {y m d : Nat} :
    validDate y m d = true ↔
      1 ≤ y ∧ y ≤ 9999 ∧ 1 ≤ m ∧ m ≤ 12 ∧ 1 ≤ d ∧ d ≤ daysInMonth y m := by
  simp [validDate]

/-- A one-or-two-digit field is not a four-digit field. -/
lemma field4_eq_none_of_field12 {s : String} {x : Nat} (h : field12 s = some x) :
    field4 s = none := by
  unfold field12 at h
  unfold field4
  split at h
  · rename_i hc
    rw [if_neg]
    rintro ⟨h4, _⟩
    rcases hc.1 with h1 | h2 <;> omega
  · exact absurd h (by simp)

/-- A four-digit field is not a one-or-two-digit field. -/
lemma field12_eq_none_of_field4 {s : String} {x : Nat} (h : field4 s = some x) :
    field12 s = none := by
  unfold field4 at h
  unfold field12
  split at h
  · rename_i hc
    rw [if_neg]
    rintro ⟨h12, _⟩
    rcases h12 with h1 | h2 <;> omega
  · exact absurd h (by simp)

/-- Reduction of `fmtYmd` on classified fields. -/
lemma fmtYmd_eq {a b c : String} {y m d : Nat}
    (ha : field4 a = some y) (hb : field12 b = some m) (hc : field12 c = some d) :
    fmtYmd a b c = if validDate y m d then some ⟨y, m, d⟩ else none := by
  simp [fmtYmd, ha, hb, hc]

/-- Reduction of `fmtDmy` on classified fields. -/
lemma fmtDmy_eq {a b c : String} {y m d : Nat}
    (ha : field12 a = some d) (hb : field12 b = some m) (hc : field4 c = some y) :
    fmtDmy a b c = if validDate y m d then some ⟨y, m, d⟩ else none := by
  simp [fmtDmy, ha, hb, hc]

/-- Reduction of `fmtMdy` on classified fields. -/
lemma fmtMdy_eq {a b c : String} {y m d : Nat}
    (ha : field12 a = some m) (hb : field12 b = some d) (hc : field4 c = some y) :
    fmtMdy a b c = if validDate y m d then some ⟨y, m, d⟩ else none := by
  simp [fmtMdy, ha, hb, hc]

/-- `fmtYmd` only matches when all three fields classify. -/
lemma fmtYmd_eq_none_of_none {a b c : String}
    (h : field4 a = none ∨ field12 b = none ∨ field12 c = none) :
    fmtYmd a b c = none := by
  unfold fmtYmd
  rcases h4 : field4 a with _ | y <;> rcases hb : field12 b with _ | m <;>
    rcases hc : field12 c with _ | d <;> simp_all

/-- Whenever one of the four `strptime` formats matches a token shape, the
permissive resolution also succeeds (on a day-first/month-first ambiguity it
may pick a different date, but it never fails on a string the old
implementation accepted). -/
lemma interpNew_isSome_of_interpOld {t : Tokens} {dt : Date}
    (h : interpOld t = some dt) : (interpNew t).isSome = true := by
  cases t with
  | other => simp [interpOld] at h
  | dash a b c =>
    simp only [interpOld] at h
    rcases h4 : field4 a with _ | y
    · rw [fmtYmd_eq_none_of_none (Or.inl h4)] at h; exact absurd h (by simp)
    rcases hb : field12 b with _ | m
    · rw [fmtYmd_eq_none_of_none (Or.inr (Or.inl hb))] at h; exact absurd h (by simp)
    rcases hc : field12 c with _ | d
    · rw [fmtYmd_eq_none_of_none (Or.inr (Or.inr hc))] at h; exact absurd h (by simp)
    rw [fmtYmd_eq h4 hb hc] at h
    by_cases hv : validDate y m d = true
    · simp [interpNew, dateutilResolve, h4, hb, hc, hv]
    · rw [if_neg hv] at h; exact absurd h (by simp)
  | slash a b c =>
    simp only [interpOld] at h
    rcases h1 : fmtDmy a b c with _ | dt1 <;> rw [h1] at h
    · rcases h2 : fmtMdy a b c with _ | dt2 <;> rw [h2] at h
      · -- only the `%Y/%m/%d` format matched
        have h3 : fmtYmd a b c = some dt := by simpa [Option.orElse] using h
        rcases h4 : field4 a with _ | y
        · rw [fmtYmd_eq_none_of_none (Or.inl h4)] at h3; exact absurd h3 (by simp)
        rcases hb : field12 b with _ | m
        · rw [fmtYmd_eq_none_of_none (Or.inr (Or.inl hb))] at h3; exact absurd h3 (by simp)
        rcases hc : field12 c with _ | d
        · rw [fmtYmd_eq_none_of_none (Or.inr (Or.inr hc))] at h3; exact absurd h3 (by simp)
        rw [fmtYmd_eq h4 hb hc] at h3
        by_cases hv : validDate y m d = true
        · simp [interpNew, dateutilResolve, h4, hb, hc, hv]
        · rw [if_neg hv] at h3; exact absurd h3 (by simp)
      · -- the `%m/%d/%Y` format matched
        rcases ha : field12 a with _ | m
        · simp [fmtMdy, ha] at h2
        rcases hb : field12 b with _ | d
        · simp [fmtMdy, ha, hb] at h2
        rcases hc : field4 c with _ | y
        · simp [fmtMdy, ha, hb, hc] at h2
        rw [fmtMdy_eq ha hb hc] at h2
        by_cases hv : validDate y m d = true
        · have hv2 := validDate_eq_true.mp hv
          have hna : field4 a = none := field4_eq_none_of_field12 ha
          have hnc : field12 c = none := field12_eq_none_of_field4 hc
          have hm12 : ¬ 12 < m := by omega
          simp [interpNew, dateutilResolve, ha, hb, hc, hna, hnc, hm12, hv]
        · rw [if_neg hv] at h2; exact absurd h2 (by simp)
    · -- the `%d/%m/%Y` format matched
      rcases ha : field12 a with _ | d
      · simp [fmtDmy, ha] at h1
      rcases hb : field12 b with _ | m
      · simp [fmtDmy, ha, hb] at h1
      rcases hc : field4 c with _ | y
      · simp [fmtDmy, ha, hb, hc] at h1
      rw [fmtDmy_eq ha hb hc] at h1
      by_cases hv : validDate y m d = true
      · have hv2 := validDate_eq_true.mp hv
        have hna : field4 a = none := field4_eq_none_of_field12 ha
        have hnc : field12 c = none := field12_eq_none_of_field4 hc
        by_cases hd : 12 < d
        · simp [interpNew, dateutilResolve, ha, hb, hc, hna, hnc, hd, hv]
        · have h28 := daysInMonth_ge_28 y d
          have hvswap : validDate y d m = true := by
            rw [validDate_eq_true]
            omega
          simp [interpNew, dateutilResolve, ha, hb, hc, hna, hnc, hd, hvswap]
      · rw [if_neg hv] at h1; exact absurd h1 (by simp)

/-- On a supported-format token shape that is not an ambiguous slash date, the
permissive resolution picks exactly the date the old format loop picked. -/
lemma interpNew_eq_interpOld_of_not_ambiguous {t : Tokens} {dt : Date}
    (h : interpOld t = some dt)
    (hamb : ∀ a b c p q y, t = Tokens.slash a b c →
      field12 a = some p → field12 b = some q → field4 c = some y →
      ¬ (p ≤ 12 ∧ q ≤ 12 ∧ p ≠ q)) :
    interpNew t = some dt := by
  cases t with
  | other => simp [interpOld] at h
  | dash a b c =>
    simp only [interpOld] at h
    rcases h4 : field4 a with _ | y
    · rw [fmtYmd_eq_none_of_none (Or.inl h4)] at h; exact absurd h (by simp)
    rcases hb : field12 b with _ | m
    · rw [fmtYmd_eq_none_of_none (Or.inr (Or.inl hb))] at h; exact absurd h (by simp)
    rcases hc : field12 c with _ | d
    · rw [fmtYmd_eq_none_of_none (Or.inr (Or.inr hc))] at h; exact absurd h (by simp)
    rw [fmtYmd_eq h4 hb hc] at h
    by_cases hv : validDate y m d = true
    · rw [if_pos hv] at h
      simpa [interpNew, dateutilResolve, h4, hb, hc, hv] using h
    · rw [if_neg hv] at h; exact absurd h (by simp)
  | slash a b c =>
    simp only [interpOld] at h
    rcases h1 : fmtDmy a b c with _ | dt1 <;> rw [h1] at h
    · rcases h2 : fmtMdy a b c with _ | dt2 <;> rw [h2] at h
      · -- `%Y/%m/%d`
        have h3 : fmtYmd a b c = some dt := by simpa [Option.orElse] using h
        rcases h4 : field4 a with _ | y
        · rw [fmtYmd_eq_none_of_none (Or.inl h4)] at h3; exact absurd h3 (by simp)
        rcases hb : field12 b with _ | m
        · rw [fmtYmd_eq_none_of_none (Or.inr (Or.inl hb))] at h3; exact absurd h3 (by simp)
        rcases hc : field12 c with _ | d
        · rw [fmtYmd_eq_none_of_none (Or.inr (Or.inr hc))] at h3; exact absurd h3 (by simp)
        rw [fmtYmd_eq h4 hb hc] at h3
        by_cases hv : validDate y m d = true
        · rw [if_pos hv] at h3
          simpa [interpNew, dateutilResolve, h4, hb, hc, hv] using h3
        · rw [if_neg hv] at h3; exact absurd h3 (by simp)
      · -- `%m/%d/%Y`
        have hdt : dt2 = dt := by simpa [Option.orElse] using h
        subst hdt
        rcases ha : field12 a with _ | m
        · simp [fmtMdy, ha] at h2
        rcases hb : field12 b with _ | d
        · simp [fmtMdy, ha, hb] at h2
        rcases hc : field4 c with _ | y
        · simp [fmtMdy, ha, hb, hc] at h2
        rw [fmtMdy_eq ha hb hc] at h2
        by_cases hv : validDate y m d = true
        · rw [if_pos hv] at h2
          have hv2 := validDate_eq_true.mp hv
          have hna : field4 a = none := field4_eq_none_of_field12 ha
          have hnc : field12 c = none := field12_eq_none_of_field4 hc
          have hm12 : ¬ 12 < m := by omega
          simpa [interpNew, dateutilResolve, ha, hb, hc, hna, hnc, hm12, hv] using h2
        · rw [if_neg hv] at h2; exact absurd h2 (by simp)
    · -- `%d/%m/%Y`
      have hdt : dt1 = dt := by simpa [Option.orElse] using h
      subst hdt
      rcases ha : field12 a with _ | d
      · simp [fmtDmy, ha] at h1
      rcases hb : field12 b with _ | m
      · simp [fmtDmy, ha, hb] at h1
      rcases hc : field4 c with _ | y
      · simp [fmtDmy, ha, hb, hc] at h1
      rw [fmtDmy_eq ha hb hc] at h1
      by_cases hv : validDate y m d = true
      · rw [if_pos hv] at h1
        have hv2 := validDate_eq_true.mp hv
        have hna : field4 a = none := field4_eq_none_of_field12 ha
        have hnc : field12 c = none := field12_eq_none_of_field4 hc
        have hcase := hamb a b c d m y rfl ha hb hc
        by_cases hd : 12 < d
        · simpa [interpNew, dateutilResolve, ha, hb, hc, hna, hnc, hd, hv] using h1
        · have hdm : d = m := by
            rcases Decidable.em (d = m) with he | hne
            · exact he
            · exact absurd ⟨by omega, by omega, hne⟩ hcase
          subst hdm
          simpa [interpNew, dateutilResolve, ha, hb, hc, hna, hnc, hd, hv] using h1
      · rw [if_neg hv] at h1; exact absurd h1 (by simp)

/-! ### Lemmas about the import driver -/

/-- A skipped row leaves the run state untouched. -/
lemma processRow_skip {d : Bool} {o : HttpOutcome} {i : Nat} {st : RunState}
    {row : Row} (h : skipRow row = true) : processRow d o i st row = st := by
  simp [processRow, h]

/-- A non-skipped row invokes `create_task` exactly once and appends exactly
one result entry (a success entry or a failure entry, at the end of the
corresponding list, the other list unchanged). -/
lemma processRow_not_skip {d : Bool} {o : HttpOutcome} {i : Nat} {st : RunState}
    {row : Row} (h : skipRow row = false) :
    ((∃ r, (processRow d o i st row).succ = st.succ ++ [r] ∧
           (processRow d o i st row).fail = st.fail) ∨
     (∃ f, (processRow d o i st row).fail = st.fail ++ [f] ∧
           (processRow d o i st row).succ = st.succ)) ∧
    (processRow d o i st row).create_calls = st.create_calls + 1 := by
  rcases hres : (create_task d o (buildTask row).name).fst with _ | body
  · exact ⟨Or.inr ⟨⟨(buildTask row).name, i, "API request failed"⟩,
      by simp [processRow, h, hres], by simp [processRow, h, hres]⟩,
      by simp [processRow, h, hres]⟩
  · by_cases hb : body = []
    · subst hb
      exact ⟨Or.inr ⟨⟨(buildTask row).name, i, "API request failed"⟩,
        by simp [processRow, h, hres], by simp [processRow, h, hres]⟩,
        by simp [processRow, h, hres]⟩
    · exact ⟨Or.inl ⟨⟨(buildTask row).name, lookupD body "id" "unknown",
        lookupD body "url" ""⟩,
        by simp [processRow, h, hres, hb], by simp [processRow, h, hres, hb]⟩,
        by simp [processRow, h, hres, hb]⟩

/-- In dry-run mode a non-skipped row always becomes a success entry carrying
the placeholder id and URL, with no HTTP request issued. -/
lemma processRow_dry {o : HttpOutcome} {i : Nat} {st : RunState} {row : Row}
    (h : skipRow row = false) :
    processRow true o i st row =
      { st with success_count := st.success_count + 1
              , succ := st.succ ++ [⟨(buildTask row).name, "dry-run-task-id",
                                     "https://app.clickup.com/dry-run-url"⟩]
              , create_calls := st.create_calls + 1 } := by
  simp [processRow, h, create_task, lookupD, List.find?]

/-- A failing creation (`create_task` returned `None`) appends a failure
entry and one issued POST. -/
lemma processRow_fail {d : Bool} {o : HttpOutcome} {i : Nat} {st : RunState}
    {row : Row} (h : skipRow row = false)
    (hres : create_task d o (buildTask row).name = (none, 1)) :
    processRow d o i st row =
      { st with error_count := st.error_count + 1
              , fail := st.fail ++ [⟨(buildTask row).name, i, "API request failed"⟩]
              , create_calls := st.create_calls + 1
              , net_posts := st.net_posts + 1 } := by
  simp [processRow, h, hres]

/-- Unfolding of one step of the processing loop. -/
lemma processFrom_cons {d : Bool} {net : Nat → HttpOutcome} {i : Nat}
    {st : RunState} {row : Row} {rest : List Row} :
    processFrom d net i st (row :: rest) =
      processFrom d net (i + 1) (processRow d (net i) i st row) rest := rfl

/-- A dry run never fails, counts one success per non-skipped row, and
issues no HTTP request. -/
lemma processFrom_dry (net : Nat → HttpOutcome) :
    ∀ (rows : List Row) (i : Nat) (st : RunState),
    (processFrom true net i st rows).error_count = st.error_count ∧
    (processFrom true net i st rows).success_count =
      st.success_count + (rows.filter (fun r => !skipRow r)).length ∧
    (processFrom true net i st rows).net_posts = st.net_posts := by
  intro rows
  induction rows with
  | nil => intro i st; simp [processFrom]
  | cons row rest ih =>
    intro i st
    cases hs : skipRow row with
    | true =>
      have h2 := ih (i + 1) st
      rw [processFrom_cons, processRow_skip hs]
      simpa [List.filter_cons, hs] using h2
    | false =>
      rw [processFrom_cons, processRow_dry hs]
      have h2 := ih (i + 1)
        ({ st with success_count := st.success_count + 1
                 , succ := st.succ ++ [⟨(buildTask row).name, "dry-run-task-id",
                                        "https://app.clickup.com/dry-run-url"⟩]
                 , create_calls := st.create_calls + 1 })
      refine ⟨?_, ?_, ?_⟩
      · simpa using h2.1
      · rw [h2.2.1]
        simp [List.filter_cons, hs]
        omega
      · simpa using h2.2.2

/-- The counters track the lengths of the two result lists. -/
lemma processRow_counts (d : Bool) (o : HttpOutcome) (i : Nat) (st : RunState)
    (row : Row)
    (h1 : st.success_count = st.succ.length)
    (h2 : st.error_count = st.fail.length) :
    (processRow d o i st row).success_count = (processRow d o i st row).succ.length ∧
    (processRow d o i st row).error_count = (processRow d o i st row).fail.length := by
  by_cases hs : skipRow row = true
  · simp [processRow_skip hs, h1, h2]
  · rcases hres : (create_task d o (buildTask row).name).fst with _ | body
    · simp [processRow, hs, hres, h1, h2]
    · by_cases hb : body = []
      · subst hb; simp [processRow, hs, hres, h1, h2]
      · simp [processRow, hs, hres, hb, h1, h2]

/-- The counters track the lengths of the two result lists, across the loop. -/
lemma processFrom_counts {d : Bool} {net : Nat → HttpOutcome} :
    ∀ (rows : List Row) (i : Nat) (st : RunState),
    st.success_count = st.succ.length → st.error_count = st.fail.length →
    (processFrom d net i st rows).success_count =
      (processFrom d net i st rows).succ.length ∧
    (processFrom d net i st rows).error_count =
      (processFrom d net i st rows).fail.length := by
  intro rows
  induction rows with
  | nil => intro i st h1 h2; exact ⟨h1, h2⟩
  | cons row rest ih =>
    intro i st h1 h2
    rw [processFrom_cons]
    have hc := processRow_counts d (net i) i st row h1 h2
    exact ih (i + 1) _ hc.1 hc.2

/-- Filtering a mapped list on a predicate that holds of every image keeps
every element. -/
lemma length_filter_map_all {α β : Type} (l : List α) (f : α → β) (p : β → Bool)
    (h : ∀ x ∈ l, p (f x) = true) : ((l.map f).filter p).length = l.length := by
  induction l with
  | nil => simp
  | cons a l ih =>
    simp only [List.map_cons, List.filter_cons, h a (by simp), if_true,
      List.length_cons]
    rw [ih (fun x hx => h x (by simp [hx]))]

/-- Filtering a mapped list on a predicate that fails of every image removes
every element. -/
lemma length_filter_map_none {α β : Type} (l : List α) (f : α → β) (p : β → Bool)
    (h : ∀ x ∈ l, p (f x) = false) : ((l.map f).filter p).length = 0 := by
  induction l with
  | nil => simp
  | cons a l ih =>
    simp only [List.map_cons, List.filter_cons, h a (by simp)]
    exact ih (fun x hx => h x (by simp [hx]))

/-- The custom-field scan is the in-order filter-and-map of the row's items. -/
lemma addCustomFields_eq (row : Row) : ∀ acc : List CustomField,
    addCustomFields acc row =
      acc ++ (row.filter (fun kv => startsCustom kv.fst && kv.snd != "")).map
        (fun kv => (⟨replaceCustom kv.fst, kv.snd⟩ : CustomField)) := by
  induction row with
  | nil => intro acc; simp [addCustomFields]
  | cons kv rest ih =>
    intro acc
    simp only [addCustomFields, List.foldl_cons] at ih ⊢
    by_cases h : (startsCustom kv.fst && kv.snd != "") = true
    · rw [if_pos h, ih, List.filter_cons, if_pos h, List.map_cons]
      simp
    · rw [if_neg h, ih, List.filter_cons, if_neg h]

/-- Characterization of a successful importer construction. -/
lemma importerInit_ok_iff {tok lid : String} {d : Bool} {u l : HttpOutcome} :
    importerInit tok lid d u l = .ok () ↔
      (tok ≠ "" ∧ lid ≠ "" ∧
        (d = true ∨ ∃ nm, verify_access u l lid = .ok nm)) := by
  unfold importerInit
  split_ifs with h1 h2 h3
  · simp [h1]
  · simp [h2]
  · simp [h1, h2, h3]
  · rcases hv : verify_access u l lid with nm | e <;>
      simp [Except.map, hv, h1, h2, h3]

/-- `main` only ever returns the exit codes 0 and 1. -/
lemma main_run_zero_or_one (env : Env) : main_run env = 0 ∨ main_run env = 1 := by
  unfold main_run
  split
  · exact Or.inr rfl
  · split
    · exact Or.inr rfl
    · split
      · exact Or.inr rfl
      · exact Or.inl rfl

/-- `main` exits with code 0 exactly when every pre-flight check passes:
token and list id are truthy, the CSV file exists, its header has a `name`
column, and (unless in dry-run mode) credential verification succeeds. -/
lemma main_run_eq_zero_iff (env : Env) :
    main_run env = 0 ↔
      (env.api_token ≠ "" ∧ env.list_id ≠ "" ∧
        (env.dry_run = true ∨
          ∃ nm, verify_access env.userReq env.listReq env.list_id = Except.ok nm) ∧
        env.file_exists = true ∧ env.header.contains "name" = true) := by
  unfold main_run
  by_cases h1 : env.api_token = ""
  · simp [h1]
  · rw [if_neg h1]
    cases hi : importerInit env.api_token env.list_id env.dry_run env.userReq env.listReq with
    | error e =>
      constructor
      · intro h
        simp at h
      · rintro ⟨ha, hb, hc, _⟩
        exact absurd (importerInit_ok_iff.mpr ⟨ha, hb, hc⟩) (by simp [hi])
    | ok u =>
      cases u
      have hcond := importerInit_ok_iff.mp hi
      unfold process_csv
      cases hfe : env.file_exists with
      | false => simp [hfe]
      | true =>
        cases hh : env.header.contains "name" with
        | false => simp [hfe, hh]
        | true =>
          simp [hfe, hh, h1]
          exact ⟨hcond.2.1, hcond.2.2⟩

/-! ### Claim C1 -/

/-- C1, counterexample: the claim requires a row whose `name` trims to the
empty string to be skipped, but the source applies no trimming — a row whose
`name` is a single space is processed: in a dry run it produces a result
entry and one `create_task` call. -/
theorem C1_counterexample :
    trimChars " " = "" ∧
    (processRows true (fun _ => HttpOutcome.transportError "") [[("name", " ")]]).succ.length = 1 ∧
    (processRows true (fun _ => HttpOutcome.transportError "") [[("name", " ")]]).create_calls = 1 := by
  decide

/-- C1, amended: for every row processed by the `process_csv` loop, if the
`name` value is present and non-empty (no trimming), `create_task` is
invoked exactly once and exactly one result entry (success or failure) is
appended to the ledger; if the row is empty or the `name` value is absent or
the empty string, the row is skipped, leaving the state unchanged (no entry,
no call). -/
theorem C1_per_row_entry (d : Bool) (o : HttpOutcome) (i : Nat)
    (st : RunState) (row : Row) :
    (skipRow row = true → processRow d o i st row = st) ∧
    (skipRow row = false →
      ((∃ r, (processRow d o i st row).succ = st.succ ++ [r] ∧
             (processRow d o i st row).fail = st.fail) ∨
       (∃ f, (processRow d o i st row).fail = st.fail ++ [f] ∧
             (processRow d o i st row).succ = st.succ)) ∧
      (processRow d o i st row).create_calls = st.create_calls + 1) :=
  ⟨fun h => processRow_skip h, fun h => processRow_not_skip h⟩

/-- C1, witness: a row with an empty `name` is skipped; a row with
name `t` yields exactly one additional `create_task` call. -/
theorem C1_witness :
    processRow true (HttpOutcome.transportError "") 1 initState [("name", "")] = initState ∧
    (processRow true (HttpOutcome.transportError "") 1 initState [("name", "t")]).create_calls =
      initState.create_calls + 1 :=
  ⟨(C1_per_row_entry true (HttpOutcome.transportError "") 1 initState [("name", "")]).1
      (by decide),
   ((C1_per_row_entry true (HttpOutcome.transportError "") 1 initState [("name", "t")]).2
      (by decide)).2⟩

/-! ### Claim C2 -/

/-- C2, counterexample: the claim says any non-2xx response makes
`create_task` return the sentinel `None`, but `raise_for_status` only raises
for statuses in 400..599; a surfaced 304 response (non-2xx) is returned as a
parsed body, not as `None`. -/
theorem C2_counterexample :
    create_task false (HttpOutcome.resp 304 [("id", "t1")]) "T" =
      (some [("id", "t1")], 1) ∧
    ¬ (200 ≤ 304 ∧ 304 < 300) := by
  decide

/-- C2, amended: when `create_task` (not in dry-run mode) receives an HTTP
response with a client-error or server-error status (400..599) or a
transport-level failure, it returns `None` (after exactly one POST) rather
than raising; the driver then appends a failure entry for that row and
continues the loop on all remaining rows from the updated state, so one
failed creation never aborts the batch. -/
theorem C2_soft_failure (status : Nat) (body : List (String × String))
    (nm msg : String) (d : Bool) (net : Nat → HttpOutcome) (i : Nat)
    (st : RunState) (row : Row) (rest : List Row) :
    (400 ≤ status → status < 600 →
      create_task false (HttpOutcome.resp status body) nm = (none, 1)) ∧
    create_task false (HttpOutcome.transportError msg) nm = (none, 1) ∧
    (skipRow row = false →
      create_task d (net i) (buildTask row).name = (none, 1) →
      processFrom d net i st (row :: rest) =
        processFrom d net (i + 1)
          { st with error_count := st.error_count + 1
                  , fail := st.fail ++ [⟨(buildTask row).name, i, "API request failed"⟩]
                  , create_calls := st.create_calls + 1
                  , net_posts := st.net_posts + 1 } rest) := by
  refine ⟨?_, rfl, ?_⟩
  · intro h1 h2
    have hr : raisesForStatus status = true := by
      simp [raisesForStatus]
      omega
    simp [create_task, hr]
  · intro h1 h2
    rw [processFrom_cons, processRow_fail h1 h2]

/-- C2, witness: a 500 response yields the sentinel, and the loop on two
rows records a failure for the first row and continues with the second. -/
theorem C2_witness :
    create_task false (HttpOutcome.resp 500 []) "T" = (none, 1) ∧
    processFrom false (fun _ => HttpOutcome.resp 500 []) 1 initState
        [[("name", "a")], [("name", "b")]] =
      processFrom false (fun _ => HttpOutcome.resp 500 []) 2
        { initState with
            error_count := initState.error_count + 1
          , fail := initState.fail ++
              [⟨(buildTask [("name", "a")]).name, 1, "API request failed"⟩]
          , create_calls := initState.create_calls + 1
          , net_posts := initState.net_posts + 1 } [[("name", "b")]] :=
  ⟨(C2_soft_failure 500 [] "T" "" false (fun _ => HttpOutcome.resp 500 []) 1 initState
      [("name", "a")] [[("name", "b")]]).1 (by decide) (by decide),
   (C2_soft_failure 500 [] "T" "" false (fun _ => HttpOutcome.resp 500 []) 1 initState
      [("name", "a")] [[("name", "b")]]).2.2 (by decide) (by decide)⟩

/-! ### Claim C3 -/

/-- C3: every string matching one of the four supported date formats is
parsed by `parse_date` to a non-null integer; the empty string parses to
null; and whenever the `due_date` value is absent or fails to parse, the
payload omits the `due_date` field; no error is raised (all functions
involved are total). -/
theorem C3_parse_date_total (s v : String) (row : Row) :
    (supportedFormat s = true → (parse_date s).isSome = true) ∧
    parse_date "" = none ∧
    (getVal row "due_date" = none → (buildTask row).due_date = none) ∧
    (getVal row "due_date" = some v → parse_date v = none →
      (buildTask row).due_date = none) := by
  refine ⟨?_, rfl, ?_, ?_⟩
  · intro h
    by_cases he : s = ""
    · subst he; exact absurd h (by decide)
    · unfold supportedFormat at h
      rcases ho : interpOld (tokenize s) with _ | dt
      · rw [ho] at h; simp at h
      · have hn := interpNew_isSome_of_interpOld ho
        unfold parse_date
        rw [if_neg he]
        rcases hm : interpNew (tokenize s) with _ | dt2
        · rw [hm] at hn; simp at hn
        · simp
  · intro h
    simp [buildTask, presentNonEmpty, h]
  · intro h hp
    by_cases he : v = ""
    · subst he; simp [buildTask, presentNonEmpty, h]
    · simp [buildTask, presentNonEmpty, h, he, hp]

/-- C3, witness: `2025-05-01` parses to a non-null integer, and a row whose
`due_date` does not parse omits the field. -/
theorem C3_witness :
    (parse_date "2025-05-01").isSome = true ∧
    (buildTask [("name", "t"), ("due_date", "not a date")]).due_date = none :=
  ⟨(C3_parse_date_total "2025-05-01" "x" []).1 (by decide),
   (C3_parse_date_total "" "not a date" [("name", "t"), ("due_date", "not a date")]).2.2.2
      (by decide) (by decide)⟩

/-! ### Claim C4 -/

/-- C4, counterexample: on the ambiguous string `01/05/2025` the older
strptime-format-list implementation follows the fixed precedence and reads
day-first (May 1, 2025), while the current dateutil-based implementation
reads month-first (January 5, 2025): the two implementations do not return
equal results on every supported-format string, and the current one does not
follow the claimed precedence order. -/
theorem C4_counterexample :
    parse_date_strptime "01/05/2025" = some (epochMillis ⟨2025, 5, 1⟩) ∧
    parse_date "01/05/2025" = some (epochMillis ⟨2025, 1, 5⟩) ∧
    parse_date "01/05/2025" ≠ parse_date_strptime "01/05/2025" := by
  decide

/-- C4, amended: the fixed-precedence behaviour holds for the older
implementation by construction, and the current permissive implementation
agrees with it on every string in the four supported formats that is not
ambiguous between day-first and month-first (that is, except slash dates
`a/b/YYYY` with `a ≤ 12`, `b ≤ 12` and `a ≠ b`, which the old
implementation reads day-first and the current one month-first). -/
theorem C4_refinement (s : String) (n : Int)
    (h : parse_date_strptime s = some n) (hamb : ambiguousSlash s = false) :
    parse_date s = some n := by
  unfold parse_date_strptime at h
  by_cases he : s = ""
  · rw [if_pos he] at h; exact absurd h (by simp)
  · rw [if_neg he] at h
    rcases ho : interpOld (tokenize s) with _ | dt
    · rw [ho] at h; simp at h
    · rw [ho] at h
      simp only [Option.map_some'] at h
      have hnew : interpNew (tokenize s) = some dt := by
        apply interpNew_eq_interpOld_of_not_ambiguous ho
        intro a b c p q y ht ha hb hc
        unfold ambiguousSlash at hamb
        rw [ht] at hamb
        simpa [ha, hb, hc] using hamb
      unfold parse_date
      rw [if_neg he, hnew]
      simp [h]

/-- C4, witness: `13/05/2025` is unambiguous (13 cannot be a month) and both
implementations return May 13, 2025. -/
theorem C4_witness :
    parse_date "13/05/2025" = some (epochMillis ⟨2025, 5, 13⟩) :=
  C4_refinement "13/05/2025" (epochMillis ⟨2025, 5, 13⟩) (by decide) (by decide)

/-! ### Claim C5 -/

/-- C5, counterexample: the source computes the custom-field id with
`key.replace('custom_', '')`, which removes every occurrence of the
substring, not only the leading prefix: for the column
`custom_custom_a` the payload id is `a`, whereas stripping only the leading
prefix (dropping the first seven characters) would give `custom_a`. -/
theorem C5_counterexample :
    (buildTask [("name", "t"), ("custom_custom_a", "v")]).custom_fields =
      [⟨"a", "v"⟩] ∧
    String.mk ("custom_custom_a".data.drop 7) = "custom_a" ∧
    ("a" : String) ≠ "custom_a" := by
  decide

/-- C5, amended: for every row, the payload's `custom_fields` sequence is
exactly the in-order list of entries `{id, value}` over the columns whose
name starts with `custom_` and whose value is non-empty, where `id` is the
column name with every occurrence of the substring `custom_` removed
(Python `str.replace`) and `value` is the raw cell text; all other columns
contribute no entry. -/
theorem C5_custom_fields (row : Row) :
    (buildTask row).custom_fields =
      (row.filter (fun kv => startsCustom kv.fst && kv.snd != "")).map
        (fun kv => (⟨replaceCustom kv.fst, kv.snd⟩ : CustomField)) := by
  have h := addCustomFields_eq row []
  simpa [buildTask] using h

/-! ### Claim C6 -/

/-- C6: in dry-run mode `create_task` issues zero HTTP requests and always
returns the synthesized body with the fixed placeholder id
`dry-run-task-id` and placeholder URL, so a dry run over any row list ends
with zero failures, a success count equal to the number of non-skipped
rows, and zero POSTs issued. -/
theorem C6_dry_run (o : HttpOutcome) (nm : String) (net : Nat → HttpOutcome)
    (rows : List Row) :
    create_task true o nm =
      (some [("id", "dry-run-task-id"), ("name", nm),
             ("url", "https://app.clickup.com/dry-run-url")], 0) ∧
    (processRows true net rows).error_count = 0 ∧
    (processRows true net rows).success_count =
      (rows.filter (fun r => !skipRow r)).length ∧
    (processRows true net rows).net_posts = 0 := by
  have h := processFrom_dry net rows 1 initState
  refine ⟨rfl, ?_, ?_, ?_⟩
  · simpa [processRows, initState] using h.1
  · simpa [processRows, initState] using h.2.1
  · simpa [processRows, initState] using h.2.2

/-! ### Claim C7 -/

/-- C7, counterexample: the 401-to-`AuthenticationError` mapping is applied
to whichever lookup failed first, not specifically to the identity lookup:
when the identity lookup returns 200 and the list lookup returns 401, the
code raises `AuthenticationError`, although the identity lookup did not
return 401. -/
theorem C7_counterexample :
    verify_access (HttpOutcome.resp 200 []) (HttpOutcome.resp 401 []) "L1" =
      Except.error (ImporterError.authentication authErrMsg) ∧
    (200 : Nat) ≠ 401 := by
  constructor
  · rfl
  · decide

/-- C7, amended: `verify_access` maps the status of the first lookup
(identity, then list) whose `raise_for_status` raises — 401 to
`AuthenticationError`, 404 to `ResourceNotFoundError`, any other raising
status (400..599) to `APIError`; a transport-level failure of either call
maps to `APIError`; on success it reports the list's display name; and the
importer constructor skips verification entirely in dry-run mode. -/
theorem C7_error_taxonomy (uStat lStat : Nat) (uBody lBody : List (String × String))
    (lid tok m : String) (u l : HttpOutcome) :
    (raisesForStatus uStat = true →
      verify_access (HttpOutcome.resp uStat uBody) l lid = statusError uStat lid) ∧
    verify_access (HttpOutcome.transportError m) l lid =
      Except.error (ImporterError.api (connectErrMsg m)) ∧
    (raisesForStatus uStat = false → raisesForStatus lStat = true →
      verify_access (HttpOutcome.resp uStat uBody) (HttpOutcome.resp lStat lBody) lid =
        statusError lStat lid) ∧
    (raisesForStatus uStat = false →
      verify_access (HttpOutcome.resp uStat uBody) (HttpOutcome.transportError m) lid =
        Except.error (ImporterError.api (connectErrMsg m))) ∧
    (raisesForStatus uStat = false → raisesForStatus lStat = false →
      verify_access (HttpOutcome.resp uStat uBody) (HttpOutcome.resp lStat lBody) lid =
        Except.ok (lookupD lBody "name" "Unknown")) ∧
    (tok ≠ "" → lid ≠ "" → importerInit tok lid true u l = Except.ok ()) := by
  refine ⟨?_, ?_, ?_, ?_, ?_, ?_⟩
  · intro h
    simp [verify_access, doRequest, h, statusError]
  · simp [verify_access, doRequest]
  · intro h1 h2
    simp [verify_access, doRequest, h1, h2, statusError]
  · intro h1
    simp [verify_access, doRequest, h1]
  · intro h1 h2
    simp [verify_access, doRequest, h1, h2, lookupD]
  · intro h1 h2
    simp [importerInit, h1, h2]

/-- C7, witness: a 401 on the identity lookup maps to the authentication
error, and a dry-run construction succeeds without touching the network. -/
theorem C7_witness :
    verify_access (HttpOutcome.resp 401 []) (HttpOutcome.resp 200 []) "L2" =
      statusError 401 "L2" ∧
    importerInit "tok" "L2" true (HttpOutcome.transportError "")
      (HttpOutcome.transportError "") = Except.ok () :=
  ⟨(C7_error_taxonomy 401 200 [] [] "L2" "tok" "" (HttpOutcome.transportError "")
      (HttpOutcome.transportError "")).1 (by decide),
   (C7_error_taxonomy 401 200 [] [] "L2" "tok" "" (HttpOutcome.transportError "")
      (HttpOutcome.transportError "")).2.2.2.2.2 (by decide) (by decide)⟩

/-! ### Claim C8 -/

/-- C8: for every run, the written ledger consists of the fixed header row
followed by exactly `success_count` rows with status `SUCCESS` and exactly
`error_count` rows with status `FAILED` and nothing else; every `SUCCESS`
row has an empty `error` field and every `FAILED` row has empty `task_id`
and `task_url` fields. -/
theorem C8_ledger (d : Bool) (net : Nat → HttpOutcome) (rows : List Row) :
    (write_results (processRows d net rows)).head? =
      some ["task_name", "status", "task_id", "task_url", "error"] ∧
    (((write_results (processRows d net rows)).drop 1).filter
        (fun r => r.get? 1 == some "SUCCESS")).length =
      (processRows d net rows).success_count ∧
    (((write_results (processRows d net rows)).drop 1).filter
        (fun r => r.get? 1 == some "FAILED")).length =
      (processRows d net rows).error_count ∧
    ((write_results (processRows d net rows)).drop 1).length =
      (processRows d net rows).success_count + (processRows d net rows).error_count ∧
    (∀ r ∈ (write_results (processRows d net rows)).drop 1,
      (r.get? 1 = some "SUCCESS" ∧ r.get? 4 = some "") ∨
      (r.get? 1 = some "FAILED" ∧ r.get? 2 = some "" ∧ r.get? 3 = some "")) := by
  have hc : (processRows d net rows).success_count =
        (processRows d net rows).succ.length ∧
      (processRows d net rows).error_count =
        (processRows d net rows).fail.length :=
    processFrom_counts rows 1 initState rfl rfl
  have hdrop : (write_results (processRows d net rows)).drop 1 =
      (processRows d net rows).succ.map
        (fun t => [t.name, "SUCCESS", t.id, t.url, ""]) ++
      (processRows d net rows).fail.map
        (fun t => [t.name, "FAILED", "", "", t.error]) := rfl
  refine ⟨rfl, ?_, ?_, ?_, ?_⟩
  · rw [hdrop, List.filter_append, List.length_append,
      length_filter_map_all _ _ _ (fun x _ => rfl),
      length_filter_map_none _ _ _ (fun x _ => rfl), hc.1]
    omega
  · rw [hdrop, List.filter_append, List.length_append,
      length_filter_map_none _ _ _ (fun x _ => rfl),
      length_filter_map_all _ _ _ (fun x _ => rfl), hc.2]
    omega
  · rw [hdrop, List.length_append, List.length_map, List.length_map, hc.1, hc.2]
  · intro r hr
    rw [hdrop] at hr
    rcases List.mem_append.mp hr with hm | hm
    · rcases List.mem_map.mp hm with ⟨t, _, rfl⟩
      exact Or.inl ⟨rfl, rfl⟩
    · rcases List.mem_map.mp hm with ⟨t, _, rfl⟩
      exact Or.inr ⟨rfl, rfl, rfl⟩

/-- C8, witness: on a one-row dry run the ledger body length equals the sum
of the counters. -/
theorem C8_witness :
    ((write_results (processRows true (fun _ => HttpOutcome.transportError "")
        [[("name", "a")]])).drop 1).length =
      (processRows true (fun _ => HttpOutcome.transportError "")
        [[("name", "a")]]).success_count +
      (processRows true (fun _ => HttpOutcome.transportError "")
        [[("name", "a")]]).error_count :=
  (C8_ledger true (fun _ => HttpOutcome.transportError "") [[("name", "a")]]).2.2.2.1

/-! ### Claim C9 -/

/-- C9: the exit code is independent of the per-row network outcomes and of
whether the ledger write succeeds (a write failure is only logged); the
program exits with 0 or 1, and it exits with 0 exactly when every pre-flight
check passes — truthy token and list id, existing file, header containing
`name`, and (unless dry-run) successful verification — i.e. exactly when
none of `ConfigurationError`, `AuthenticationError`,
`ResourceNotFoundError`, `APIError`, `CSVError` is raised. -/
theorem C9_exit_code (env : Env) (n1 n2 : Nat → HttpOutcome) (w1 w2 : Bool) :
    main_run { env with net := n1, write_ok := w1 } =
      main_run { env with net := n2, write_ok := w2 } ∧
    (main_run env = 0 ∨ main_run env = 1) ∧
    (main_run env = 0 ↔
      (env.api_token ≠ "" ∧ env.list_id ≠ "" ∧
        (env.dry_run = true ∨
          ∃ nm, verify_access env.userReq env.listReq env.list_id = Except.ok nm) ∧
        env.file_exists = true ∧ env.header.contains "name" = true)) := by
  refine ⟨?_, main_run_zero_or_one env, main_run_eq_zero_iff env⟩
  have i1 := main_run_eq_zero_iff { env with net := n1, write_ok := w1 }
  have i2 := main_run_eq_zero_iff { env with net := n2, write_ok := w2 }
  rcases main_run_zero_or_one { env with net := n1, write_ok := w1 } with ha | ha <;>
    rcases main_run_zero_or_one { env with net := n2, write_ok := w2 } with hb | hb
  · rw [ha, hb]
  · have h0 : main_run { env with net := n2, write_ok := w2 } = 0 :=
      i2.mpr (i1.mp ha)
    rw [hb] at h0
    exact absurd h0 (by decide)
  · have h0 : main_run { env with net := n1, write_ok := w1 } = 0 :=
      i1.mpr (i2.mp hb)
    rw [ha] at h0
    exact absurd h0 (by decide)
  · rw [ha, hb]

/-- C9, witness: a dry-run environment with a failing network and a failing
ledger write still exits with code 0. -/
theorem C9_witness :
    main_run
      ({ api_token := "t", list_id := "l", dry_run := true, output_file := some "o",
         userReq := HttpOutcome.transportError "", listReq := HttpOutcome.transportError "",
         file_exists := true, header := ["name"], rows := [[("name", "a")]],
         net := fun _ => HttpOutcome.resp 500 [], write_ok := false } : Env) = 0 :=
  (C9_exit_code
      ({ api_token := "t", list_id := "l", dry_run := true, output_file := some "o",
         userReq := HttpOutcome.transportError "", listReq := HttpOutcome.transportError "",
         file_exists := true, header := ["name"], rows := [[("name", "a")]],
         net := fun _ => HttpOutcome.resp 500 [], write_ok := false } : Env)
      (fun _ => HttpOutcome.resp 500 []) (fun _ => HttpOutcome.resp 500 [])
      false false).2.2.mpr
    ⟨by decide, by decide, Or.inl rfl, rfl, by decide⟩

/-! ### Claim C10 -/

/-- C10: a `due_date` string parsing to exactly 0 epoch milliseconds (the
Unix epoch under the UTC model, e.g. `1970-01-01`) is omitted from the
payload because the inclusion check tests the truthiness of the parsed
integer, while every non-zero parse result — including negative, pre-1970
values — is included. -/
theorem C10_epoch_zero (row : Row) (v : String) (n : Int) :
    parse_date "1970-01-01" = some 0 ∧
    (getVal row "due_date" = some v → parse_date v = some 0 →
      (buildTask row).due_date = none) ∧
    (getVal row "due_date" = some v → parse_date v = some n → n ≠ 0 →
      (buildTask row).due_date = some n) := by
  refine ⟨by decide, ?_, ?_⟩
  · intro h hp
    by_cases he : v = ""
    · subst he
      rw [show parse_date "" = none from rfl] at hp
      exact absurd hp (by simp)
    · simp [buildTask, presentNonEmpty, h, he, hp]
  · intro h hp hn
    by_cases he : v = ""
    · subst he
      rw [show parse_date "" = none from rfl] at hp
      exact absurd hp (by simp)
    · simp [buildTask, presentNonEmpty, h, he, hp, hn]

/-- C10, witness: `1970-01-01` is dropped from the payload though it parses
to `some 0`; `1969-12-31` (a negative timestamp) is kept. -/
theorem C10_witness :
    (buildTask [("name", "t"), ("due_date", "1970-01-01")]).due_date = none ∧
    (buildTask [("name", "t"), ("due_date", "1969-12-31")]).due_date =
      some (-86400000) :=
  ⟨(C10_epoch_zero [("name", "t"), ("due_date", "1970-01-01")] "1970-01-01" 1).2.1
      (by decide) (by decide),
   (C10_epoch_zero [("name", "t"), ("due_date", "1969-12-31")] "1969-12-31"
      (-86400000)).2.2 (by decide) (by decide) (by decide)⟩

end ClickUpImporter
